import Mathlib

/-!
Shallow embedding of the SOCKS5 UDP support checker (src/udp-check.py).

Python strings are modelled as lists of characters (`PyStr`); byte strings
as lists of naturals, each in 0..255 on real wires.  Blocking socket I/O is
modelled by an explicit environment: the TCP control channel is a list of
receive results (one per `recv` call), and the UDP probe socket is a small
record saying whether `sendto` raises and what `recvfrom` yields.  Python
exceptions become an explicit `Except` error value; the `try/finally`
resource discipline is made observable through a trace of socket events.
The `verbose` printing, the CLI layer (`main`) and the numeric timeout
values are irrelevant to the claims and are not modelled; a receive
timeout is an environment outcome rather than a clock event.
-/

deriving instance DecidableEq for Except

/-- Python `str` values, as sequences of code points. -/
abbrev PyStr := List Char

/-- UTF-8 encoding of a Python string, as byte values (Python `str.encode`). -/
def utf8Str (s : PyStr) : List Nat :=
  (s.flatMap (fun c => String.utf8EncodeChar c)).map (fun b => b.toNat)

/-- Python `str.split` with a single-character separator: keeps empty parts,
and the empty string splits to `[""]`. -/
def splitOnChar (c : Char) : PyStr → List PyStr
  | [] => [[]]
  | a :: rest =>
    let r := splitOnChar c rest
    if a = c then [] :: r
    else
      match r with
      | [] => [[a]]
      | hd :: tl => (a :: hd) :: tl

/-- Python exceptions that the checker can raise.  `connectionError` is
`ConnectionError` with its message, `sockTimeout` is `socket.timeout`,
`structError` is `struct.error` (a value out of range for a pack format, or
a buffer of the wrong size for unpack), `unicodeDecodeError` is a failing
`bytes.decode`, and `osError` covers other socket-level errors. -/
inductive PyErr where
  | connectionError (msg : String)
  | sockTimeout
  | structError
  | unicodeDecodeError
  | osError (msg : String)
deriving DecidableEq, Repr

/-- One outcome of a blocking `sock.recv` call on the TCP control channel:
a chunk of bytes from the peer, a timeout, or another socket error.  An
exhausted list models a closed peer (`recv` returns the empty byte string). -/
inductive RecvItem where
  | chunk (bs : List Nat)
  | timeout
  | err (msg : String)
deriving DecidableEq, Repr

/-- State of the TCP control socket: the pending receive outcomes and the
log of all bytes written so far with `sendall`. -/
structure TCPState where
  stream : List RecvItem
  sent : List Nat
deriving DecidableEq, Repr

-- Protocol constants of the checker (class SOCKS5 in the source).
namespace SOCKS5

def VERSION : Nat := 0x05

def AUTH_NONE : Nat := 0x00

def AUTH_USERPASS : Nat := 0x02

def CMD_UDP_ASSOCIATE : Nat := 0x03

def ATYP_IPV4 : Nat := 0x01

def ATYP_DOMAIN : Nat := 0x03

def REP_SUCCESS : Nat := 0x00

/-- The fixed reply-code-to-message dictionary (`SOCKS5.ERROR_MESSAGES`). -/
def ERROR_MESSAGES (code : Nat) : Option String :=
  if code = 0x01 then some ("General server failure")
  else if code = 0x02 then some ("Connection not allowed by ruleset")
  else if code = 0x03 then some ("Network unreachable")
  else if code = 0x04 then some ("Host unreachable")
  else if code = 0x05 then some ("Connection refused")
  else if code = 0x06 then some ("TTL expired")
  else if code = 0x07 then some ("Command not supported")
  else if code = 0x08 then some ("Address type not supported")
  else if code = 0x09 then some ("UDP not supported")
  else none

end SOCKS5

/-- Lookup with default, as in `ERROR_MESSAGES.get(reply, f"Unknown error (code {reply})")`. -/
def error_message_or_default (reply : Nat) : String :=
  (SOCKS5.ERROR_MESSAGES reply).getD ("Unknown error (code " ++ Nat.repr reply ++ ")")

/-- Blocking `sock.recv n` on the control channel: consumes the next receive
outcome; a data chunk is truncated to at most `n` bytes. -/
def recv (n : Nat) (st : TCPState) : Except PyErr (List Nat × TCPState) :=
  match st.stream with
  | [] => .ok ([], st)
  | item :: rest =>
    match item with
    | .chunk bs => .ok (bs.take n, { st with stream := rest })
    | .timeout => .error PyErr.sockTimeout
    | .err m => .error (PyErr.osError m)

/-- Model of `sock.sendall`, which appends to the write log. -/
def sendall (bs : List Nat) (st : TCPState) : TCPState :=
  { st with sent := st.sent ++ bs }

/-- One-byte `struct.pack`: raises `struct.error` above 255. -/
def packB (n : Nat) : Except PyErr (List Nat) :=
  if n ≤ 255 then .ok [n] else .error PyErr.structError

/-- Python truthiness of an optional string argument: `None` and the empty
string are falsy. -/
def truthy : Option (List Nat) → Bool
  | none => false
  | some l => !l.isEmpty

/-- The RFC 1929 authentication request assembled at lines 69-73 of the
source: `pack('BB', 0x01, len(user)) + user + pack('B', len(pass)) + pass`,
built from the UTF-8 encodings of the credentials.  The single-byte length
packs raise `struct.error` when a credential encoding exceeds 255 bytes. -/
def auth_request (user_bytes pass_bytes : List Nat) : Except PyErr (List Nat) :=
  match packB user_bytes.length with
  | .error e => .error e
  | .ok ulen =>
    match packB pass_bytes.length with
    | .error e => .error e
    | .ok plen => .ok ([0x01] ++ ulen ++ user_bytes ++ plen ++ pass_bytes)

/-- The `connect_socks5` handshake.  Credentials are carried as optional
UTF-8 byte strings (the result of `str.encode` on the Python arguments);
the result is the unit value plus the final socket state. -/
def connect_socks5 (username password : Option (List Nat)) (st : TCPState) :
    Except PyErr (Unit × TCPState) :=
  let greeting :=
    if truthy username && truthy password then
      [SOCKS5.VERSION, 2, SOCKS5.AUTH_NONE, SOCKS5.AUTH_USERPASS]
    else
      [SOCKS5.VERSION, 1, SOCKS5.AUTH_NONE]
  let st0 := sendall greeting st
  match recv 2 st0 with
  | .error e => .error e
  | .ok (response, st1) =>
    match response with
    | [version, method] =>
      if version ≠ SOCKS5.VERSION then
        .error (PyErr.connectionError ("Unsupported SOCKS version: " ++ Nat.repr version))
      else if method = 0xFF then
        .error (PyErr.connectionError ("No acceptable authentication methods"))
      else if method = SOCKS5.AUTH_USERPASS then
        if !(truthy username && truthy password) then
          .error (PyErr.connectionError ("Server requires authentication"))
        else
          let user_bytes := username.getD []
          let pass_bytes := password.getD []
          match auth_request user_bytes pass_bytes with
          | .error e => .error e
          | .ok req =>
            let st2 := sendall req st1
            match recv 2 st2 with
            | .error e => .error e
            | .ok (auth_resp, st3) =>
              if auth_resp.length ≠ 2 then
                .error (PyErr.connectionError ("Authentication failed"))
              else if auth_resp.getD 1 0 ≠ 0x00 then
                .error (PyErr.connectionError ("Authentication failed"))
              else
                .ok ((), st3)
      else
        .ok ((), st1)
    | _ => .error (PyErr.connectionError ("Invalid handshake response"))

/-- Model of `socket.inet_ntoa`: four raw bytes formatted as a dotted quad; any other
length raises. -/
def inet_ntoa (bs : List Nat) : Except PyErr PyStr :=
  match bs with
  | [a, b, c, d] =>
    .ok (Nat.toDigits 10 a ++ ['.'] ++ Nat.toDigits 10 b ++ ['.'] ++
         Nat.toDigits 10 c ++ ['.'] ++ Nat.toDigits 10 d)
  | _ => .error (PyErr.osError ("packed IP wrong length for inet_ntoa"))

/-- Whether a byte is a UTF-8 continuation byte. -/
def isCont (b : Nat) : Bool := 0x80 ≤ b && b < 0xC0

/-- Strict UTF-8 decoding of a byte string, rejecting malformed, overlong,
surrogate and out-of-range sequences (the behaviour of `bytes.decode`). -/
def utf8DecodeBytes : List Nat → Option (List Char)
  | [] => some []
  | b0 :: rest =>
    if b0 < 0x80 then
      (utf8DecodeBytes rest).map (fun cs => Char.ofNat b0 :: cs)
    else if 0xC2 ≤ b0 && b0 < 0xE0 then
      match rest with
      | b1 :: rest2 =>
        if isCont b1 then
          (utf8DecodeBytes rest2).map
            (fun cs => Char.ofNat ((b0 - 0xC0) * 0x40 + (b1 - 0x80)) :: cs)
        else none
      | _ => none
    else if 0xE0 ≤ b0 && b0 < 0xF0 then
      match rest with
      | b1 :: b2 :: rest2 =>
        let cp := (b0 - 0xE0) * 0x1000 + (b1 - 0x80) * 0x40 + (b2 - 0x80)
        if isCont b1 && isCont b2 && 0x800 ≤ cp && !(0xD800 ≤ cp && cp < 0xE000) then
          (utf8DecodeBytes rest2).map (fun cs => Char.ofNat cp :: cs)
        else none
      | _ => none
    else if 0xF0 ≤ b0 && b0 < 0xF5 then
      match rest with
      | b1 :: b2 :: b3 :: rest2 =>
        let cp := (b0 - 0xF0) * 0x40000 + (b1 - 0x80) * 0x1000 +
                  (b2 - 0x80) * 0x40 + (b3 - 0x80)
        if isCont b1 && isCont b2 && isCont b3 && 0x10000 ≤ cp && cp < 0x110000 then
          (utf8DecodeBytes rest2).map (fun cs => Char.ofNat cp :: cs)
        else none
      | _ => none
    else none

/-- Model of `bytes.decode` (strict UTF-8) as an exception-raising operation. -/
def py_decode_utf8 (bs : List Nat) : Except PyErr PyStr :=
  match utf8DecodeBytes bs with
  | some s => .ok s
  | none => .error PyErr.unicodeDecodeError

/-- The trailing port read of `request_udp_associate`:
`struct.unpack('!H', sock.recv(2))[0]`, network byte order; `unpack`
raises `struct.error` unless exactly two bytes arrived. -/
def read_port (st : TCPState) : Except PyErr (Nat × TCPState) :=
  match recv 2 st with
  | .error e => .error e
  | .ok (pb, st1) =>
    match pb with
    | [b0, b1] => .ok (b0 * 256 + b1, st1)
    | _ => .error PyErr.structError

/-- The `request_udp_associate` exchange: sends the fixed UDP ASSOCIATE
request, reads and validates the 4-byte response header, decodes the bound
relay address by address type and then the 2-byte port. -/
def request_udp_associate (st : TCPState) : Except PyErr ((PyStr × Nat) × TCPState) :=
  let request := [SOCKS5.VERSION, SOCKS5.CMD_UDP_ASSOCIATE, 0x00] ++
                 [SOCKS5.ATYP_IPV4] ++ [0, 0, 0, 0] ++ [0, 0]
  let st0 := sendall request st
  match recv 4 st0 with
  | .error e => .error e
  | .ok (header, st1) =>
    match header with
    | [version, reply, _rsv, atyp] =>
      if version ≠ SOCKS5.VERSION then
        .error (PyErr.connectionError ("Invalid SOCKS version: " ++ Nat.repr version))
      else if reply ≠ SOCKS5.REP_SUCCESS then
        .error (PyErr.connectionError ("UDP ASSOCIATE failed: " ++ error_message_or_default reply))
      else
        let host_result : Except PyErr (PyStr × TCPState) :=
          if atyp = SOCKS5.ATYP_IPV4 then
            match recv 4 st1 with
            | .error e => .error e
            | .ok (addr, st2) =>
              match inet_ntoa addr with
              | .error e => .error e
              | .ok relay_host => .ok (relay_host, st2)
          else if atyp = SOCKS5.ATYP_DOMAIN then
            match recv 1 st1 with
            | .error e => .error e
            | .ok (lb, st2) =>
              match lb with
              | [length] =>
                match recv length st2 with
                | .error e => .error e
                | .ok (host_bytes, st3) =>
                  match py_decode_utf8 host_bytes with
                  | .error e => .error e
                  | .ok relay_host => .ok (relay_host, st3)
              | _ => .error PyErr.structError
          else
            .error (PyErr.connectionError ("Unsupported address type: " ++ Nat.repr atyp))
        match host_result with
        | .error e => .error e
        | .ok (relay_host, st4) =>
          match read_port st4 with
          | .error e => .error e
          | .ok (relay_port, st5) => .ok ((relay_host, relay_port), st5)
    | _ => .error (PyErr.connectionError ("Invalid UDP ASSOCIATE response"))

/-- One step of the question-section loop of `create_dns_query`:
`question += struct.pack('B', len(part)) + part.encode('utf-8')`.  Note
that `len(part)` is the length of the Python `str` - the character count
of the part - while the label body is its UTF-8 encoding; the two
coincide exactly on ASCII labels, such as those of the only domain the
program ever queries, google.com. -/
def dns_question_step (acc : List Nat) (part : PyStr) : Except PyErr (List Nat) :=
  match packB part.length with
  | .error e => .error e
  | .ok lb => .ok (acc ++ lb ++ utf8Str part)

/-- The builder `create_dns_query`: the fixed 12-byte header followed by the domain
split on dots into length-prefixed labels, a zero terminator, and
qtype = 1, qclass = 1. -/
def create_dns_query (domain : PyStr) : Except PyErr (List Nat) :=
  let header := [0x12, 0x34, 0x01, 0x00, 0x00, 0x01, 0x00, 0x00, 0x00, 0x00, 0x00, 0x00]
  match (splitOnChar '.' domain).foldlM dns_question_step [] with
  | .error e => .error e
  | .ok question => .ok (header ++ (question ++ [0x00] ++ [0x00, 0x01, 0x00, 0x01]))

/-- Socket lifecycle events, used to observe the resource discipline. -/
inductive Ev where
  | openTCP
  | closeTCP
  | openUDP
  | closeUDP
  | udpSend (host : PyStr) (port : Nat) (packet : List Nat)
deriving DecidableEq, Repr

/-- Outcome of the single blocking `recvfrom` on the probe socket. -/
inductive UDPRecv where
  | reply (bs : List Nat)
  | timeout
  | err (msg : String)
deriving DecidableEq, Repr

/-- Environment of the UDP probe socket: whether `sendto` raises, and what
the subsequent `recvfrom` yields. -/
structure UDPEnv where
  sendErr : Option String
  recvResult : UDPRecv
deriving DecidableEq, Repr

/-- The encapsulated probe packet built at lines 131-138 of the source:
`pack('!HBB', 0, 0, ATYP_DOMAIN)`, the length-prefixed target `"8.8.8.8"`,
`pack('!H', 53)`, then the DNS query for `"google.com"`. -/
def test_udp_relay_packet : Except PyErr (List Nat) :=
  let header := [0x00, 0x00, 0x00, SOCKS5.ATYP_DOMAIN]
  let target_bytes := utf8Str ("8.8.8.8").data
  match packB target_bytes.length with
  | .error e => .error e
  | .ok lb =>
    let header2 := header ++ lb ++ target_bytes ++ [0x00, 53]
    match create_dns_query ("google.com").data with
    | .error e => .error e
    | .ok dns_query => .ok (header2 ++ dns_query)

/-- Body of the outer `try` of `test_udp_relay`, given the built packet:
send, then receive once, catching only `socket.timeout` (which yields
`False`); the verdict on a reply is `len(response) > 10`, with `recvfrom`
truncating the datagram to 4096 bytes. -/
def test_udp_relay_inner (relay_host : PyStr) (relay_port : Nat) (env : UDPEnv)
    (packet : List Nat) : Except PyErr Bool × List Ev :=
  match env.sendErr with
  | some m => (.error (PyErr.osError m), [])
  | none =>
    let sendEv := Ev.udpSend relay_host relay_port packet
    match env.recvResult with
    | .reply bs => (.ok (decide (10 < (bs.take 4096).length)), [sendEv])
    | .timeout => (.ok false, [sendEv])
    | .err m => (.error (PyErr.osError m), [sendEv])

/-- The probe `test_udp_relay`: opens the UDP socket, runs the probe body, and closes
the socket in `finally` on every exit path. -/
def test_udp_relay (relay_host : PyStr) (relay_port : Nat) (env : UDPEnv) :
    Except PyErr Bool × List Ev :=
  let body :=
    match test_udp_relay_packet with
    | .error e => ((.error e : Except PyErr Bool), ([] : List Ev))
    | .ok packet => test_udp_relay_inner relay_host relay_port env packet
  (body.1, Ev.openUDP :: body.2 ++ [Ev.closeUDP])

/-- Environment of one whole check: the outcome of the TCP `connect`
(`none` meaning success), the TCP receive stream, and the UDP probe
environment. -/
structure Env where
  connectErr : Option PyErr
  stream : List RecvItem
  udp : UDPEnv
deriving DecidableEq, Repr

/-- Body of the `try` block of `check_udp_support`: connect, handshake,
UDP ASSOCIATE, then the relay probe; any raised exception is propagated as
an error value.  The trace records the UDP socket events of the probe. -/
def check_body (username password : Option (List Nat)) (env : Env) :
    Except PyErr Bool × List Ev :=
  match env.connectErr with
  | some e => (.error e, [])
  | none =>
    match connect_socks5 username password ⟨env.stream, []⟩ with
    | .error e => (.error e, [])
    | .ok (_, st1) =>
      match request_udp_associate st1 with
      | .error e => (.error e, [])
      | .ok ((relay_host, relay_port), _) =>
        test_udp_relay relay_host relay_port env.udp

/-- Top-level `check_udp_support`: the body under `try`, with every raised exception
(`ConnectionError`, `socket.timeout`, or any other `Exception`) caught and
collapsed to `False`, and the TCP socket closed in `finally`. -/
def check_udp_support (username password : Option (List Nat)) (env : Env) :
    Bool × List Ev :=
  let body := check_body username password env
  let result :=
    match body.1 with
    | .ok b => b
    | .error _ => false
  (result, Ev.openTCP :: body.2 ++ [Ev.closeTCP])

/-- Whether a run reaches the relay-probe stage: connect, handshake and
UDP ASSOCIATE all succeed. -/
def probeReached (username password : Option (List Nat)) (env : Env) : Bool :=
  match env.connectErr with
  | some _ => false
  | none =>
    match connect_socks5 username password ⟨env.stream, []⟩ with
    | .error _ => false
    | .ok (_, st1) =>
      match request_udp_associate st1 with
      | .error _ => false
      | .ok _ => true

/-! Helper lemmas shared by the claim theorems. -/

/-- The probe packet always builds successfully, to this exact byte string:
the 4-byte relay header, the length-prefixed target name, port 53, and the
28-byte DNS query for google.com. -/
theorem test_udp_relay_packet_ok :
    test_udp_relay_packet =
      Except.ok [0, 0, 0, 3, 7, 56, 46, 56, 46, 56, 46, 56, 0, 53,
                 18, 52, 1, 0, 0, 1, 0, 0, 0, 0, 0, 0,
                 6, 103, 111, 111, 103, 108, 101, 3, 99, 111, 109, 0, 0, 1, 0, 1] := by
  decide

/-- The probe trace is always an open, a middle part, and a close. -/
theorem test_udp_relay_trace (rh : PyStr) (rp : Nat) (env : UDPEnv) :
    ∃ mid, (test_udp_relay rh rp env).2 = Ev.openUDP :: mid ++ [Ev.closeUDP] :=
  ⟨(match test_udp_relay_packet with
    | .error _ => ([] : List Ev)
    | .ok packet => (test_udp_relay_inner rh rp env packet).2), rfl⟩

/-- Unfolding of the question-section loop of the DNS query builder over a
list of labels whose character counts all fit in one length byte: each
label contributes its character count as the prefix byte followed by its
UTF-8 encoding. -/
theorem dns_question_foldl (parts : List PyStr) (acc : List Nat)
    (h : ∀ part ∈ parts, part.length ≤ 255) :
    parts.foldlM dns_question_step acc =
      Except.ok (acc ++ parts.flatMap (fun part => part.length :: utf8Str part)) := by
  induction parts generalizing acc with
  | nil =>
    show pure acc = Except.ok (acc ++ [].flatMap (fun part => part.length :: utf8Str part))
    simp only [List.flatMap_nil, List.append_nil]
    rfl
  | cons hd tl ih =>
    have hhd : hd.length ≤ 255 := h hd (List.mem_cons_self hd tl)
    have htl : ∀ part ∈ tl, part.length ≤ 255 :=
      fun part hp => h part (List.mem_cons_of_mem hd hp)
    have step : dns_question_step acc hd =
        Except.ok (acc ++ [hd.length] ++ utf8Str hd) := by
      simp [dns_question_step, packB, hhd]
    rw [List.foldlM_cons, step]
    show tl.foldlM dns_question_step (acc ++ [hd.length] ++ utf8Str hd) = _
    rw [ih _ htl]
    simp [List.flatMap_cons, List.append_assoc]

/-- C1: the relay probe returns true if and only if a UDP reply arrives
within the timeout (the send having succeeded) and the reply is longer
than 10 bytes; on a receive timeout it returns false. -/
theorem c1_probe_verdict (rh : PyStr) (rp : Nat) (env : UDPEnv) :
    ((test_udp_relay rh rp env).1 = Except.ok true ↔
      env.sendErr = none ∧ ∃ bs, env.recvResult = UDPRecv.reply bs ∧ 10 < bs.length)
    ∧ (env.sendErr = none → env.recvResult = UDPRecv.timeout →
      (test_udp_relay rh rp env).1 = Except.ok false) := by
  obtain ⟨se, rr⟩ := env
  cases se with
  | some m =>
    cases rr <;>
      simp [test_udp_relay, test_udp_relay_packet_ok, test_udp_relay_inner]
  | none =>
    cases rr with
    | reply bs =>
      have hm := List.length_take 4096 bs
      constructor
      · constructor
        · intro h
          simp only [test_udp_relay, test_udp_relay_packet_ok, test_udp_relay_inner,
            Except.ok.injEq, decide_eq_true_eq] at h
          exact ⟨rfl, bs, rfl, by omega⟩
        · rintro ⟨-, bs2, hb, hlen⟩
          cases hb
          simp only [test_udp_relay, test_udp_relay_packet_ok, test_udp_relay_inner,
            Except.ok.injEq, decide_eq_true_eq]
          omega
      · intro _ hto
        exact absurd hto (by simp)
    | timeout =>
      simp [test_udp_relay, test_udp_relay_packet_ok, test_udp_relay_inner]
    | err m =>
      simp [test_udp_relay, test_udp_relay_packet_ok, test_udp_relay_inner]

/-- Witness for C1 at a concrete timing-out environment. -/
theorem c1_probe_verdict_witness :
    (test_udp_relay (("h").data) 9 ⟨none, UDPRecv.timeout⟩).1 = Except.ok false :=
  (c1_probe_verdict (("h").data) 9 ⟨none, UDPRecv.timeout⟩).2 rfl rfl

/-- C2: whenever any stage of the check raises, the top-level
check_udp_support returns the plain boolean false rather than propagating
the exception, and a true verdict can only come from a fully successful
run; the function never exits the process (process exit lives only in the
CLI `main`, outside this core). -/
theorem c2_failures_collapse_to_false (u p : Option (List Nat)) (env : Env) :
    (∀ e, (check_body u p env).1 = Except.error e →
      (check_udp_support u p env).1 = false)
    ∧ ((check_udp_support u p env).1 = true → (check_body u p env).1 = Except.ok true) := by
  constructor
  · intro e he
    simp [check_udp_support, he]
  · intro ht
    simp only [check_udp_support] at ht
    cases hb : (check_body u p env).1 with
    | error e => rw [hb] at ht; simp at ht
    | ok b => rw [hb] at ht; simp at ht; rw [ht]

/-- Witness for C2 at a concrete environment whose TCP connect times out. -/
theorem c2_failures_collapse_to_false_witness :
    (check_udp_support none none
      ⟨some PyErr.sockTimeout, [], ⟨none, UDPRecv.timeout⟩⟩).1 = false :=
  (c2_failures_collapse_to_false none none
      ⟨some PyErr.sockTimeout, [], ⟨none, UDPRecv.timeout⟩⟩).1 PyErr.sockTimeout rfl

/-- C3: the authentication request encoding fails (with the struct.error
realising the spec's CredentialTooLong failure) exactly when a credential
encoding exceeds 255 bytes, and otherwise yields version 0x01 followed by
the two length-prefixed credential byte strings. -/
theorem c3_auth_request_encoding (ub pb : List Nat) :
    (ub.length ≤ 255 → pb.length ≤ 255 →
      auth_request ub pb = Except.ok ([0x01, ub.length] ++ ub ++ [pb.length] ++ pb))
    ∧ (255 < ub.length ∨ 255 < pb.length →
      auth_request ub pb = Except.error PyErr.structError) := by
  constructor
  · intro h1 h2
    simp [auth_request, packB, h1, h2]
  · intro h
    by_cases h1 : ub.length ≤ 255
    · have h2 : ¬ pb.length ≤ 255 := by omega
      simp [auth_request, packB, h1, h2]
    · simp [auth_request, packB, h1]

/-- Witness for C3 at concrete one-byte credentials. -/
theorem c3_auth_request_encoding_witness :
    auth_request [7] [9] = Except.ok [1, 1, 7, 1, 9] := by
  have h := (c3_auth_request_encoding [7] [9]).1 (by decide) (by decide)
  simpa using h

/-- C7: the DNS query builder is a pure function - hence deterministic -
that, whenever every dot-separated part of the domain has at most 255
characters (the range of the one-byte length pack), produces exactly the
fixed 12-byte header (id 0x1234, flags 0x0100, qdcount 1, other counts 0)
followed by, for each domain part in order, a length byte holding the
part's character count (the Python len of the part, which equals the byte
count for ASCII labels) and then the part's UTF-8 bytes, a zero
terminator, and qtype 1, qclass 1: the label sequence reproduces the
domain's dot-separated parts in order. -/
theorem c7_create_dns_query (domain : PyStr)
    (h : ∀ part ∈ splitOnChar '.' domain, part.length ≤ 255) :
    create_dns_query domain =
      Except.ok ([0x12, 0x34, 0x01, 0x00, 0x00, 0x01, 0x00, 0x00, 0x00, 0x00, 0x00, 0x00] ++
        ((splitOnChar '.' domain).flatMap
          (fun part => part.length :: utf8Str part) ++
         [0x00] ++ [0x00, 0x01, 0x00, 0x01])) := by
  simp only [create_dns_query]
  rw [dns_question_foldl _ _ h]
  simp

/-- Witness for C7: the query for google.com, byte for byte. -/
theorem c7_create_dns_query_witness :
    create_dns_query (("google.com").data) =
      Except.ok [18, 52, 1, 0, 0, 1, 0, 0, 0, 0, 0, 0,
                 6, 103, 111, 111, 103, 108, 101, 3, 99, 111, 109, 0, 0, 1, 0, 1] := by
  rw [c7_create_dns_query (("google.com").data) (by decide)]
  decide

/-- C4: any non-zero reply code in the UDP ASSOCIATE response fails the
command with a message of the form "UDP ASSOCIATE failed: m", where m is
exactly the fixed table entry for codes 1 through 9 (spelled out below)
and a generic unknown-error message embedding the numeric code for every
other non-zero code; only code 0 proceeds past the reply check. -/
theorem c4_reply_code_messages (r : Nat) (rest : List RecvItem) (hr : r ≠ 0) :
    (request_udp_associate ⟨RecvItem.chunk [5, r, 0, 1] :: rest, []⟩ =
      Except.error (PyErr.connectionError
        ("UDP ASSOCIATE failed: " ++ error_message_or_default r)))
    ∧ error_message_or_default 0x01 = "General server failure"
    ∧ error_message_or_default 0x02 = "Connection not allowed by ruleset"
    ∧ error_message_or_default 0x03 = "Network unreachable"
    ∧ error_message_or_default 0x04 = "Host unreachable"
    ∧ error_message_or_default 0x05 = "Connection refused"
    ∧ error_message_or_default 0x06 = "TTL expired"
    ∧ error_message_or_default 0x07 = "Command not supported"
    ∧ error_message_or_default 0x08 = "Address type not supported"
    ∧ error_message_or_default 0x09 = "UDP not supported"
    ∧ (10 ≤ r → error_message_or_default r =
        "Unknown error (code " ++ Nat.repr r ++ ")") := by
  refine ⟨?_, by decide, by decide, by decide, by decide, by decide, by decide,
    by decide, by decide, by decide, ?_⟩
  · simp [request_udp_associate, sendall, recv, SOCKS5.VERSION, SOCKS5.REP_SUCCESS, hr]
  · intro h10
    have h1 : r ≠ 0x01 := by omega
    have h2 : r ≠ 0x02 := by omega
    have h3 : r ≠ 0x03 := by omega
    have h4 : r ≠ 0x04 := by omega
    have h5 : r ≠ 0x05 := by omega
    have h6 : r ≠ 0x06 := by omega
    have h7 : r ≠ 0x07 := by omega
    have h8 : r ≠ 0x08 := by omega
    have h9 : r ≠ 0x09 := by omega
    simp [error_message_or_default, SOCKS5.ERROR_MESSAGES,
      h1, h2, h3, h4, h5, h6, h7, h8, h9]

/-- Witness for C4 at the concrete reply code 0x02 and at an unknown code. -/
theorem c4_reply_code_messages_witness :
    request_udp_associate ⟨[RecvItem.chunk [5, 2, 0, 1]], []⟩ =
      Except.error (PyErr.connectionError
        ("UDP ASSOCIATE failed: " ++ error_message_or_default 2)) :=
  (c4_reply_code_messages 2 [] (by decide)).1

/-- C5: a successful UDP ASSOCIATE response is decoded by address type -
IPv4 reads exactly four bytes and formats them as a dotted quad, domain
reads one length byte and then that many bytes decoded as text, and any
other type fails with the unsupported-address-type error - followed by a
two-byte network-order port; concretely, header 05 00 00 01 with address
bytes 1.2.3.4 and port 5000 yields the endpoint ("1.2.3.4", 5000). -/
theorem c5_relay_address_decoding :
    (∀ b0 b1 b2 b3 p0 p1 : Nat, ∀ rest : List RecvItem,
      request_udp_associate ⟨[RecvItem.chunk [5, 0, 0, 1], RecvItem.chunk [b0, b1, b2, b3],
          RecvItem.chunk [p0, p1]] ++ rest, []⟩ =
        Except.ok ((Nat.toDigits 10 b0 ++ ['.'] ++ Nat.toDigits 10 b1 ++ ['.'] ++
                    Nat.toDigits 10 b2 ++ ['.'] ++ Nat.toDigits 10 b3,
                    p0 * 256 + p1),
                   ⟨rest, [5, 3, 0, 1, 0, 0, 0, 0, 0, 0]⟩))
    ∧ (∀ (bs : List Nat) (s : PyStr) (p0 p1 : Nat) (rest : List RecvItem),
        py_decode_utf8 bs = Except.ok s →
      request_udp_associate ⟨[RecvItem.chunk [5, 0, 0, 3], RecvItem.chunk [bs.length],
          RecvItem.chunk bs, RecvItem.chunk [p0, p1]] ++ rest, []⟩ =
        Except.ok ((s, p0 * 256 + p1), ⟨rest, [5, 3, 0, 1, 0, 0, 0, 0, 0, 0]⟩))
    ∧ (∀ a : Nat, ∀ rest : List RecvItem, a ≠ 1 → a ≠ 3 →
      request_udp_associate ⟨RecvItem.chunk [5, 0, 0, a] :: rest, []⟩ =
        Except.error (PyErr.connectionError ("Unsupported address type: " ++ Nat.repr a)))
    ∧ request_udp_associate ⟨[RecvItem.chunk [5, 0, 0, 1], RecvItem.chunk [1, 2, 3, 4],
        RecvItem.chunk [19, 136]], []⟩ =
        Except.ok (((("1.2.3.4").data), 5000), ⟨[], [5, 3, 0, 1, 0, 0, 0, 0, 0, 0]⟩) := by
  refine ⟨?_, ?_, ?_, by decide⟩
  · intro b0 b1 b2 b3 p0 p1 rest
    simp [request_udp_associate, sendall, recv, read_port, inet_ntoa,
      SOCKS5.VERSION, SOCKS5.REP_SUCCESS, SOCKS5.ATYP_IPV4, SOCKS5.ATYP_DOMAIN,
      SOCKS5.CMD_UDP_ASSOCIATE]
  · intro bs s p0 p1 rest hdec
    simp [request_udp_associate, sendall, recv, read_port, hdec, List.take_length,
      SOCKS5.VERSION, SOCKS5.REP_SUCCESS, SOCKS5.ATYP_IPV4, SOCKS5.ATYP_DOMAIN,
      SOCKS5.CMD_UDP_ASSOCIATE]
  · intro a rest h1 h3
    simp [request_udp_associate, sendall, recv, h1, h3,
      SOCKS5.VERSION, SOCKS5.REP_SUCCESS, SOCKS5.ATYP_IPV4, SOCKS5.ATYP_DOMAIN,
      SOCKS5.CMD_UDP_ASSOCIATE]

/-- Witness for C5: the domain branch decoding the label bytes of "com". -/
theorem c5_relay_address_decoding_witness :
    request_udp_associate ⟨[RecvItem.chunk [5, 0, 0, 3], RecvItem.chunk [3],
        RecvItem.chunk [99, 111, 109], RecvItem.chunk [19, 136]], []⟩ =
      Except.ok (((("com").data), 5000), ⟨[], [5, 3, 0, 1, 0, 0, 0, 0, 0, 0]⟩) := by
  have h := c5_relay_address_decoding.2.1 [99, 111, 109] (("com").data) 19 136 [] (by decide)
  simpa using h

/-- C8: every packet the probe sends through the relay is the fixed
encapsulation: two reserved zero bytes, fragment zero, the domain address
type applied unconditionally to the IPv4-literal target 8.8.8.8 as a
length-prefixed name, port 53 in network order, then the DNS query payload. -/
theorem c8_relay_encapsulation (rh : PyStr) (rp : Nat) (env : UDPEnv)
    (h : PyStr) (pt : Nat) (pkt : List Nat)
    (hmem : Ev.udpSend h pt pkt ∈ (test_udp_relay rh rp env).2) :
    ∃ dns, create_dns_query (("google.com").data) = Except.ok dns ∧
      pkt = [0x00, 0x00] ++ [0x00] ++ [SOCKS5.ATYP_DOMAIN] ++
            [(utf8Str (("8.8.8.8").data)).length] ++ utf8Str (("8.8.8.8").data) ++
            [0x00, 53] ++ dns := by
  obtain ⟨se, rr⟩ := env
  refine ⟨[18, 52, 1, 0, 0, 1, 0, 0, 0, 0, 0, 0,
           6, 103, 111, 111, 103, 108, 101, 3, 99, 111, 109, 0, 0, 1, 0, 1],
    by decide, ?_⟩
  cases se with
  | some m =>
    simp [test_udp_relay, test_udp_relay_packet_ok, test_udp_relay_inner] at hmem
  | none =>
    cases rr with
    | reply bs =>
      simp [test_udp_relay, test_udp_relay_packet_ok, test_udp_relay_inner] at hmem
      obtain ⟨-, -, rfl⟩ := hmem
      decide
    | timeout =>
      simp [test_udp_relay, test_udp_relay_packet_ok, test_udp_relay_inner] at hmem
      obtain ⟨-, -, rfl⟩ := hmem
      decide
    | err m =>
      simp [test_udp_relay, test_udp_relay_packet_ok, test_udp_relay_inner] at hmem
      obtain ⟨-, -, rfl⟩ := hmem
      decide

/-- Witness for C8 at a concrete environment, naming the sent packet. -/
theorem c8_relay_encapsulation_witness :
    ∃ dns, create_dns_query (("google.com").data) = Except.ok dns ∧
      [0, 0, 0, 3, 7, 56, 46, 56, 46, 56, 46, 56, 0, 53,
       18, 52, 1, 0, 0, 1, 0, 0, 0, 0, 0, 0,
       6, 103, 111, 111, 103, 108, 101, 3, 99, 111, 109, 0, 0, 1, 0, 1] =
      [0x00, 0x00] ++ [0x00] ++ [SOCKS5.ATYP_DOMAIN] ++
      [(utf8Str (("8.8.8.8").data)).length] ++ utf8Str (("8.8.8.8").data) ++
      [0x00, 53] ++ dns :=
  c8_relay_encapsulation [] 0 ⟨none, UDPRecv.timeout⟩ [] 0
    [0, 0, 0, 3, 7, 56, 46, 56, 46, 56, 46, 56, 0, 53,
     18, 52, 1, 0, 0, 1, 0, 0, 0, 0, 0, 0,
     6, 103, 111, 111, 103, 108, 101, 3, 99, 111, 109, 0, 0, 1, 0, 1]
    (by decide)

/-- C6: authentication sub-negotiation happens exactly when the selected
method is username/password: method 0xFF fails with the
no-acceptable-method error; method 0x02 without credentials fails with the
authentication-required error before anything further is sent; method 0x02
with credentials sends exactly the greeting followed by the auth request
and succeeds precisely when the two-byte response has second byte 0x00,
failing on a wrong status byte or a short response; and any other method is
accepted with nothing but the greeting ever written. -/
theorem c6_auth_negotiation (u p : Option (List Nat)) (rest : List RecvItem) :
    (connect_socks5 u p ⟨RecvItem.chunk [5, 0xFF] :: rest, []⟩ =
        Except.error (PyErr.connectionError ("No acceptable authentication methods")))
    ∧ (¬(truthy u = true ∧ truthy p = true) →
        connect_socks5 u p ⟨RecvItem.chunk [5, 2] :: rest, []⟩ =
          Except.error (PyErr.connectionError ("Server requires authentication")))
    ∧ (∀ ub pb a0 a1, u = some ub → p = some pb → ub ≠ [] → pb ≠ [] →
        ub.length ≤ 255 → pb.length ≤ 255 →
        connect_socks5 u p ⟨[RecvItem.chunk [5, 2], RecvItem.chunk [a0, a1]] ++ rest, []⟩ =
          (if a1 = 0 then
            Except.ok ((), ⟨rest, [5, 2, 0, 2] ++ ([0x01, ub.length] ++ ub ++ [pb.length] ++ pb)⟩)
          else
            Except.error (PyErr.connectionError ("Authentication failed"))))
    ∧ (∀ ub pb bs, u = some ub → p = some pb → ub ≠ [] → pb ≠ [] →
        ub.length ≤ 255 → pb.length ≤ 255 → bs.length < 2 →
        connect_socks5 u p ⟨[RecvItem.chunk [5, 2], RecvItem.chunk bs] ++ rest, []⟩ =
          Except.error (PyErr.connectionError ("Authentication failed")))
    ∧ (∀ m, m ≠ 0xFF → m ≠ 2 →
        connect_socks5 u p ⟨RecvItem.chunk [5, m] :: rest, []⟩ =
          Except.ok ((), ⟨rest, if truthy u && truthy p then [5, 2, 0, 2] else [5, 1, 0]⟩)) := by
  refine ⟨?_, ?_, ?_, ?_, ?_⟩
  · cases hg : (truthy u && truthy p) <;>
      simp [connect_socks5, recv, sendall, hg,
        SOCKS5.VERSION, SOCKS5.AUTH_NONE, SOCKS5.AUTH_USERPASS]
  · intro hcred
    have hf : (truthy u && truthy p) = false := by
      cases hb : (truthy u && truthy p) with
      | false => rfl
      | true => exact absurd (by simpa [Bool.and_eq_true] using hb) hcred
    simp [connect_socks5, recv, sendall, hf,
      SOCKS5.VERSION, SOCKS5.AUTH_NONE, SOCKS5.AUTH_USERPASS]
  · intro ub pb a0 a1 hu hp hub hpb hl1 hl2
    subst hu; subst hp
    have hu2 : ub.isEmpty = false := by
      cases ub with
      | nil => exact absurd rfl hub
      | cons a l => rfl
    have hp2 : pb.isEmpty = false := by
      cases pb with
      | nil => exact absurd rfl hpb
      | cons a l => rfl
    have ht : (truthy (some ub) && truthy (some pb)) = true := by
      simp [truthy, hu2, hp2]
    by_cases ha : a1 = 0 <;>
      simp [connect_socks5, recv, sendall, ht, auth_request, packB, hl1, hl2, ha,
        SOCKS5.VERSION, SOCKS5.AUTH_NONE, SOCKS5.AUTH_USERPASS]
  · intro ub pb bs hu hp hub hpb hl1 hl2 hlen
    subst hu; subst hp
    have hu2 : ub.isEmpty = false := by
      cases ub with
      | nil => exact absurd rfl hub
      | cons a l => rfl
    have hp2 : pb.isEmpty = false := by
      cases pb with
      | nil => exact absurd rfl hpb
      | cons a l => rfl
    have ht : (truthy (some ub) && truthy (some pb)) = true := by
      simp [truthy, hu2, hp2]
    have htk : (bs.take 2).length ≠ 2 := by
      have := List.length_take 2 bs
      omega
    simp [connect_socks5, recv, sendall, ht, auth_request, packB, hl1, hl2, htk,
      SOCKS5.VERSION, SOCKS5.AUTH_NONE, SOCKS5.AUTH_USERPASS]
    exact fun hcon => absurd hcon (by omega)
  · intro m hm255 hm2
    cases hg : (truthy u && truthy p) <;>
      simp [connect_socks5, recv, sendall, hg, hm255, hm2,
        SOCKS5.VERSION, SOCKS5.AUTH_NONE, SOCKS5.AUTH_USERPASS]

/-- Witness for C6: a successful credentialed sub-negotiation, showing the
exact bytes written. -/
theorem c6_auth_negotiation_witness :
    connect_socks5 (some [7]) (some [9])
        ⟨[RecvItem.chunk [5, 2], RecvItem.chunk [1, 0]], []⟩ =
      Except.ok ((), ⟨[], [5, 2, 0, 2, 1, 1, 7, 1, 9]⟩) := by
  have h := (c6_auth_negotiation (some [7]) (some [9]) []).2.2.1 [7] [9] 1 0
    rfl rfl (by decide) (by decide) (by decide) (by decide)
  simpa using h

/-- C9: every check opens exactly one TCP socket and closes it exactly
once, opens a UDP socket exactly when the probe stage is reached and never
more than once, and closes the UDP socket as many times as it opens it, on
every exit path. -/
theorem c9_socket_lifecycle (u p : Option (List Nat)) (env : Env) :
    ((check_udp_support u p env).2.count Ev.openTCP = 1)
    ∧ ((check_udp_support u p env).2.count Ev.closeTCP = 1)
    ∧ ((check_udp_support u p env).2.count Ev.openUDP =
        (if probeReached u p env then 1 else 0))
    ∧ ((check_udp_support u p env).2.count Ev.closeUDP =
        (check_udp_support u p env).2.count Ev.openUDP) := by
  obtain ⟨ce, stream, udp⟩ := env
  obtain ⟨se, rr⟩ := udp
  cases ce with
  | some e =>
    simp [check_udp_support, check_body, probeReached]
  | none =>
    cases h1 : connect_socks5 u p ⟨stream, []⟩ with
    | error e =>
      simp [check_udp_support, check_body, probeReached, h1]
    | ok r1 =>
      obtain ⟨u1, st1⟩ := r1
      cases h2 : request_udp_associate st1 with
      | error e =>
        simp [check_udp_support, check_body, probeReached, h1, h2]
      | ok r2 =>
        obtain ⟨⟨rh, rp⟩, st2⟩ := r2
        cases se with
        | some m =>
          simp [check_udp_support, check_body, probeReached, h1, h2,
            test_udp_relay, test_udp_relay_packet_ok, test_udp_relay_inner]
        | none =>
          cases rr <;>
            simp [check_udp_support, check_body, probeReached, h1, h2,
              test_udp_relay, test_udp_relay_packet_ok, test_udp_relay_inner]

/-- C10: on every run that reaches the probe stage, the TCP control socket
is closed strictly after the UDP probe has finished - the trace always
ends with the UDP close followed by the TCP close, so the control
connection stays open for the whole probe. -/
theorem c10_tcp_outlives_probe (u p : Option (List Nat)) (env : Env)
    (h : probeReached u p env = true) :
    ∃ l, (check_udp_support u p env).2 = l ++ [Ev.closeUDP, Ev.closeTCP] := by
  obtain ⟨ce, stream, udp⟩ := env
  cases ce with
  | some e => simp [probeReached] at h
  | none =>
    cases h1 : connect_socks5 u p ⟨stream, []⟩ with
    | error e => simp [probeReached, h1] at h
    | ok r1 =>
      obtain ⟨u1, st1⟩ := r1
      cases h2 : request_udp_associate st1 with
      | error e => simp [probeReached, h1, h2] at h
      | ok r2 =>
        obtain ⟨⟨rh, rp⟩, st2⟩ := r2
        obtain ⟨mid, hm⟩ := test_udp_relay_trace rh rp udp
        refine ⟨Ev.openTCP :: Ev.openUDP :: mid, ?_⟩
        simp [check_udp_support, check_body, h1, h2, hm]

/-- Witness for C10 at a concrete fully successful handshake. -/
theorem c10_tcp_outlives_probe_witness :
    ∃ l, (check_udp_support none none
      ⟨none, [RecvItem.chunk [5, 0], RecvItem.chunk [5, 0, 0, 1],
              RecvItem.chunk [1, 2, 3, 4], RecvItem.chunk [19, 136]],
       ⟨none, UDPRecv.timeout⟩⟩).2 = l ++ [Ev.closeUDP, Ev.closeTCP] :=
  c10_tcp_outlives_probe none none
    ⟨none, [RecvItem.chunk [5, 0], RecvItem.chunk [5, 0, 0, 1],
            RecvItem.chunk [1, 2, 3, 4], RecvItem.chunk [19, 136]],
     ⟨none, UDPRecv.timeout⟩⟩ (by decide)
